import Mathlib

/-!
Shallow embedding of `django/contrib/gis/db/models/fields/__init__.py`
(geodjango): the `GeometryField` class, its conversion helpers
(`geodetic`, `get_distance`, `get_geometry`, `get_srid`), its ORM hooks
(`get_db_prep_lookup`, `get_db_prep_save`) and its seven geometry-kind
subclasses.  Python dynamic values are embedded as the inductive `PyVal`;
exceptions become `Except PyError`; the external collaborators
(`SpatialBackend`, `Distance`, `gqn`) that live outside the translated file
are modelled as explicit parameters or spec-modelled definitions.
-/

namespace GeoDjango

/-- A backend geometry object (`SpatialBackend.Geometry`).  Only the parts
this file touches are embedded: the mutable `srid` attribute (`None` or an
integer) and an opaque payload standing for the geometric data. -/
structure Geometry where
  srid : Option Int
  payload : String
deriving DecidableEq, Repr

/-- Modelled from the spec: `django.contrib.gis.measure.Distance` is imported
by the file but its module is not under src/.  Per the spec a distance object
carries a magnitude convertible between linear units; the standard stored
unit is the meter, exposed as the attribute `m` (so `D(km=1).m == 1000`). -/
structure Distance where
  m : ℚ
deriving DecidableEq, Repr

/-- Modelled from the spec: the meters-per-unit table behind
`Distance.unit_attname` / `getattr` conversion (the measure module is not
under src/).  Unlisted unit names are given factor 1. -/
def unitFactor : String → ℚ
  | "Meter" => 1
  | "Kilometer" => 1000
  | "Kilometre" => 1000
  | "Foot" => 3048 / 10000
  | _ => 1

/-- Modelled from the spec: `getattr(dist, Distance.unit_attname(name))`,
i.e. the magnitude of the distance expressed in the named unit. -/
def Distance.inUnits (d : Distance) (unit_name : String) : ℚ :=
  d.m / unitFactor unit_name

/-- A Python value as this file can receive it: a backend geometry, a string,
a `Distance` object, a number, or `None`. -/
inductive PyVal
  | geom (g : Geometry)
  | pstr (s : String)
  | dist (d : Distance)
  | num (q : ℚ)
  | pynone
deriving DecidableEq, Repr

/-- A lookup value: either a single Python value or a tuple/list of them
(`isinstance(value, (tuple, list))` in the source). -/
inductive LookupValue
  | single (v : PyVal)
  | tup (vs : List PyVal)
deriving DecidableEq, Repr

/-- The Python exceptions raised by this file (constructor-level: the
message strings are elided). -/
inductive PyError
  | typeError
  | valueError
  | indexError
deriving DecidableEq, Repr

/-- The database adaptor wrapping a geometry (`SpatialBackend.Adaptor`). -/
structure Adaptor where
  geom : Geometry
deriving DecidableEq, Repr

/-- Modelled from the spec: the `SpatialBackend` container imported from
`django.contrib.gis.db.backend` (not under src/).  It bundles the flags,
term lists and collaborator operations the translated file reads:
`postgis`, `gis_terms`, `distance_functions`, `limited_where`, the
`Geometry` constructor (here a parse function that either yields a geometry
or fails with the backend `GeometryException`, embedded as `none`), and the
field placeholder hook `get_placeholder` inherited from
`SpatialBackend.Field`. -/
structure SpatialBackend where
  postgis : Bool
  gis_terms : List String
  distance_functions : List String
  limited_where : List String
  parseGeom : String → Option Geometry
  get_placeholder : Geometry → String

/-- Modelled from the spec: `gqn`, the geographic quoting function imported
from `django.contrib.gis.db.backend` (not under src/): string values are
returned single-quoted, other values are returned unchanged. -/
def gqn : PyVal → PyVal
  | .pstr s => .pstr ("\x27" ++ s ++ "\x27")
  | v => v

/-- The data of a `GeometryField` instance: the SRID and the unit /
unit-name / spheroid triple that `__init__` obtains from
`get_srid_info(srid)`, the OpenGIS type name `_geom` (overridden by the
subclasses), the `spatial_index` flag and the dimension. -/
structure GeometryField where
  srid : Int
  unit : String
  unit_name : String
  spheroid : String
  geom_type : String
  spatial_index : Bool
  dim : Nat
deriving DecidableEq, Repr

/-- The class attribute `geodetic_units = ('Decimal Degree', 'degree')`. -/
def geodetic_units : List String := ["Decimal Degree", "degree"]

/-- `GeometryField.geodetic`: true iff the field's unit name is one of the
geodetic units. -/
def GeometryField.geodetic (f : GeometryField) : Bool :=
  geodetic_units.contains f.unit_name

/-- The `dist_param` computation of `get_distance` (lines 73-84 of the
source): a `Distance` is converted (meters when geodetic, field units
otherwise, `TypeError` for geodetic PostGIS `dwithin`), anything else is
assumed to already be in the units of the field. -/
def GeometryField.dist_param (f : GeometryField) (b : SpatialBackend)
    (dist : PyVal) (lookup_type : String) : Except PyError PyVal :=
  match dist with
  | .dist d =>
    if f.geodetic then
      if b.postgis = true ∧ lookup_type = "dwithin" then .error .typeError
      else .ok (.num d.m)
    else .ok (.num (d.inUnits f.unit_name))
  | v => .ok v

/-- The body of `get_distance` after the `dist, option` unpacking of
`dist_val` (lines 73-92 of the source). -/
def GeometryField.get_distance_core (f : GeometryField) (b : SpatialBackend)
    (dist : PyVal) (option : Option PyVal) (lookup_type : String) :
    Except PyError (List PyVal) :=
  match f.dist_param b dist lookup_type with
  | .error e => .error e
  | .ok dp =>
    if b.postgis = true ∧ f.geodetic = true ∧ lookup_type ≠ "dwithin" ∧
        option = some (.pstr ("spheroid")) then
      .ok [gqn (.pstr f.spheroid), dp]
    else
      .ok [dp]

/-- `GeometryField.get_distance(dist_val, lookup_type)`.  `dist_val` is the
tail of the lookup tuple; one element means no option, two elements unpack
into the distance and the option, and any other length raises the Python
unpacking `ValueError`. -/
def GeometryField.get_distance (f : GeometryField) (b : SpatialBackend)
    (dist_val : List PyVal) (lookup_type : String) : Except PyError (List PyVal) :=
  match dist_val with
  | [d] => f.get_distance_core b d none lookup_type
  | [d, o] => f.get_distance_core b d (some o) lookup_type
  | _ => .error .valueError

/-- `GeometryField.get_srid(geom)`: takes the geometry's own SRID attribute
and returns the field's SRID when it is `None`, or when it is `-1` while the
field's SRID is not `-1`; otherwise the geometry's own SRID. -/
def GeometryField.get_srid (f : GeometryField) (gsrid : Option Int) : Int :=
  match gsrid with
  | none => f.srid
  | some s => if s = -1 ∧ f.srid ≠ -1 then f.srid else s

/-- `GeometryField.get_geometry(value)`: takes the first element of a
tuple/list value (an empty tuple raises the Python `IndexError`), accepts a
backend geometry as-is, constructs one from a string through the backend
`Geometry` constructor (`GeometryException` becomes `ValueError`), rejects
anything else with `TypeError`, and finally overwrites the geometry's
`srid` attribute with `get_srid`. -/
def GeometryField.get_geometry (f : GeometryField) (b : SpatialBackend)
    (value : LookupValue) : Except PyError Geometry :=
  let geom0 : Except PyError PyVal :=
    match value with
    | .tup vs =>
      match vs.head? with
      | some v => .ok v
      | none => .error .indexError
    | .single v => .ok v
  match geom0 with
  | .error e => .error e
  | .ok g0 =>
    let geom : Except PyError Geometry :=
      match g0 with
      | .geom g => .ok g
      | .pstr s =>
        match b.parseGeom s with
        | some g => .ok g
        | none => .error .valueError
      | _ => .error .typeError
    match geom with
    | .error e => .error e
    | .ok g => .ok { g with srid := some (f.get_srid g.srid) }

/-- `GeometryField.get_db_prep_lookup(lookup_type, value)`: rejects lookup
types outside the backend's `gis_terms` with `TypeError`, short-circuits
`isnull` to `([], [])`, otherwise builds the WHERE-clause list (placeholder
first, then distance parameters or `gqn`-quoted extras for tuple values) and
the parameter list holding the adaptor-wrapped geometry. -/
def GeometryField.get_db_prep_lookup (f : GeometryField) (b : SpatialBackend)
    (lookup_type : String) (value : LookupValue) :
    Except PyError (List PyVal × List Adaptor) :=
  if b.gis_terms.contains lookup_type then
    if lookup_type = "isnull" then .ok ([], [])
    else
      match f.get_geometry b value with
      | .error e => .error e
      | .ok geom =>
        let whereClause := [PyVal.pstr (b.get_placeholder geom)]
        let params := [Adaptor.mk geom]
        match value with
        | .tup vs =>
          if b.distance_functions.contains lookup_type then
            match f.get_distance b (vs.drop 1) lookup_type with
            | .error e => .error e
            | .ok dists => .ok (whereClause ++ dists, params)
          else if b.limited_where.contains lookup_type then
            .ok (whereClause, params)
          else
            .ok (whereClause ++ (vs.drop 1).map gqn, params)
        | .single _ => .ok (whereClause, params)
  else
    .error .typeError

/-- `GeometryField.get_db_prep_save(value)`: an adaptor-wrapped geometry for
a backend geometry, `None` for `None`, `TypeError` for everything else. -/
def GeometryField.get_db_prep_save (_f : GeometryField) (value : PyVal) :
    Except PyError (Option Adaptor) :=
  match value with
  | .geom g => .ok (some (Adaptor.mk g))
  | .pynone => .ok none
  | _ => .error .typeError

/-- The subclass constructors below share `__init__` with the base class;
only the `_geom` slot differs.  This builds the field data for a given
`_geom` value. -/
def mkField (geom_type : String) (srid : Int)
    (unit unit_name spheroid : String) (spatial_index : Bool) (dim : Nat) :
    GeometryField :=
  { srid := srid, unit := unit, unit_name := unit_name, spheroid := spheroid,
    geom_type := geom_type, spatial_index := spatial_index, dim := dim }

/-- The base class: `_geom = 'GEOMETRY'`. -/
def GeometryField.make : Int → String → String → String → Bool → Nat → GeometryField :=
  mkField ("GEOMETRY")

/-- `class PointField(GeometryField): _geom = 'POINT'`. -/
def PointField : Int → String → String → String → Bool → Nat → GeometryField :=
  mkField ("POINT")

/-- `class LineStringField(GeometryField): _geom = 'LINESTRING'`. -/
def LineStringField : Int → String → String → String → Bool → Nat → GeometryField :=
  mkField ("LINESTRING")

/-- `class PolygonField(GeometryField): _geom = 'POLYGON'`. -/
def PolygonField : Int → String → String → String → Bool → Nat → GeometryField :=
  mkField ("POLYGON")

/-- `class MultiPointField(GeometryField): _geom = 'MULTIPOINT'`. -/
def MultiPointField : Int → String → String → String → Bool → Nat → GeometryField :=
  mkField ("MULTIPOINT")

/-- `class MultiLineStringField(GeometryField): _geom = 'MULTILINESTRING'`. -/
def MultiLineStringField : Int → String → String → String → Bool → Nat → GeometryField :=
  mkField ("MULTILINESTRING")

/-- `class MultiPolygonField(GeometryField): _geom = 'MULTIPOLYGON'`. -/
def MultiPolygonField : Int → String → String → String → Bool → Nat → GeometryField :=
  mkField ("MULTIPOLYGON")

/-- `class GeometryCollectionField(GeometryField): _geom = 'GEOMETRYCOLLECTION'`. -/
def GeometryCollectionField : Int → String → String → String → Bool → Nat → GeometryField :=
  mkField ("GEOMETRYCOLLECTION")

/-- `dist_val` as `get_distance` receives it: the distance parameter alone,
or the distance parameter followed by an option. -/
def mkDistVal (d : PyVal) : Option PyVal → List PyVal
  | none => [d]
  | some o => [d, o]

/- Concrete fixtures for the witnesses. -/

/-- A sample PostGIS-style backend for the concrete witnesses. -/
def pgBackend : SpatialBackend where
  postgis := true
  gis_terms := ["contains", "dwithin", "distance_lte", "isnull", "overlaps", "relate"]
  distance_functions := ["distance_lte", "dwithin"]
  limited_where := ["overlaps"]
  parseGeom := fun s => if s = "POINT (0 0)" then some { srid := none, payload := s } else none
  get_placeholder := fun _ => "%s"

/-- A sample projected (non-geodetic) field whose units are meters. -/
def meterField : GeometryField :=
  GeometryField.make 32140 ("m") ("Meter") ("SPHEROID[GRS_1980]") true 2

/-- A sample geodetic field (WGS84, decimal degrees). -/
def degreeField : GeometryField :=
  GeometryField.make 4326 ("dd") ("Decimal Degree") ("SPHEROID[WGS_84]") true 2

/-- C1: for every non-geodetic `GeometryField` and every `Distance` object
passed as the distance parameter (with or without an option), `get_distance`
returns a one-element list whose sole element is the distance converted to
the linear units of the field; a non-`Distance` parameter is passed through
unconverted. -/
theorem c1_get_distance_non_geodetic (f : GeometryField) (b : SpatialBackend)
    (lt : String) (o : Option PyVal) (h : f.geodetic = false) :
    (∀ d : Distance,
      f.get_distance b (mkDistVal (.dist d) o) lt = .ok [.num (d.inUnits f.unit_name)])
    ∧ ∀ v : PyVal, (∀ d : Distance, v ≠ .dist d) →
      f.get_distance b (mkDistVal v o) lt = .ok [v] := by
  constructor
  · intro d
    cases o <;>
      simp [mkDistVal, GeometryField.get_distance, GeometryField.get_distance_core,
        GeometryField.dist_param, h]
  · intro v hv
    cases o <;> rcases v with g | s | d | q | _ <;>
      simp [mkDistVal, GeometryField.get_distance, GeometryField.get_distance_core,
        GeometryField.dist_param, h] <;>
      exact absurd rfl (hv d)

/-- C1 witness: a distance of 1000 m (i.e. `D(km=1)`) on a meter-unit field
yields the single parameter 1000; a plain number 5 passes through. -/
theorem c1_get_distance_non_geodetic_witness :
    meterField.get_distance pgBackend [.dist ⟨1000⟩] ("distance_lte") = .ok [.num 1000]
    ∧ meterField.get_distance pgBackend [.num 5] ("distance_lte") = .ok [.num 5] := by
  have h := c1_get_distance_non_geodetic meterField pgBackend ("distance_lte") none (by decide)
  refine ⟨?_, ?_⟩
  · have h1 := h.1 ⟨1000⟩
    simpa [mkDistVal, Distance.inUnits, unitFactor, meterField, GeometryField.make,
      mkField] using h1
  · exact h.2 (.num 5) (by intro d hd; cases hd)

/-- C2: on a geodetic field, a `Distance` is converted to meters for the
spherical distance calculation, except that on PostGIS with the `dwithin`
lookup a `TypeError` is raised instead. -/
theorem c2_get_distance_geodetic (f : GeometryField) (b : SpatialBackend)
    (lt : String) (o : Option PyVal) (d : Distance) (h : f.geodetic = true) :
    (b.postgis = true ∧ lt = "dwithin" →
      f.get_distance b (mkDistVal (.dist d) o) lt = .error .typeError)
    ∧ (¬(b.postgis = true ∧ lt = "dwithin") →
      ∃ l, f.get_distance b (mkDistVal (.dist d) o) lt = .ok l ∧
        l.getLast? = some (.num d.m)) := by
  have hdp_err : b.postgis = true ∧ lt = "dwithin" →
      f.dist_param b (.dist d) lt = .error .typeError := by
    intro hdw
    simp [GeometryField.dist_param, h, hdw]
  have hdp_ok : ¬(b.postgis = true ∧ lt = "dwithin") →
      f.dist_param b (.dist d) lt = .ok (.num d.m) := by
    intro hdw
    simp [GeometryField.dist_param, h, hdw]
  constructor
  · intro hdw
    cases o <;>
      simp [mkDistVal, GeometryField.get_distance, GeometryField.get_distance_core,
        hdp_err hdw]
  · intro hdw
    cases o <;>
      simp only [mkDistVal, GeometryField.get_distance, GeometryField.get_distance_core,
        hdp_ok hdw] <;>
      split <;>
      exact ⟨_, rfl, rfl⟩

/-- C2 witness: on the geodetic WGS84 field, `D` of 2500 m becomes the meter
parameter 2500 for `distance_lte`, and `dwithin` on PostGIS raises
`TypeError`. -/
theorem c2_get_distance_geodetic_witness :
    degreeField.get_distance pgBackend [.dist ⟨2500⟩] ("dwithin") = .error .typeError
    ∧ ∃ l, degreeField.get_distance pgBackend [.dist ⟨2500⟩] ("distance_lte") = .ok l ∧
        l.getLast? = some (.num 2500) := by
  constructor
  · exact (c2_get_distance_geodetic degreeField pgBackend ("dwithin") none ⟨2500⟩
      (by decide)).1 ⟨rfl, rfl⟩
  · exact (c2_get_distance_geodetic degreeField pgBackend ("distance_lte") none ⟨2500⟩
      (by decide)).2 (by simp [pgBackend])

/-- C3: whenever `get_distance` returns normally, the returned parameter
list is the two-element list `[quoted spheroid, distance value]` exactly
when the backend is PostGIS, the field is geodetic, the lookup type is not
`dwithin`, and the option is the string `spheroid`; in every other case it
is a one-element list holding only the distance value. -/
theorem c3_get_distance_spheroid_shape (f : GeometryField) (b : SpatialBackend)
    (lt : String) (dv : PyVal) (o : Option PyVal) (l : List PyVal)
    (hok : f.get_distance b (mkDistVal dv o) lt = .ok l) :
    ∃ p, l = if b.postgis = true ∧ f.geodetic = true ∧ lt ≠ "dwithin" ∧
        o = some (.pstr ("spheroid")) then [gqn (.pstr f.spheroid), p] else [p] := by
  cases o <;>
    simp only [mkDistVal, GeometryField.get_distance] at hok <;>
    rcases hdp : f.dist_param b dv lt with e | p <;>
    simp only [GeometryField.get_distance_core, hdp] at hok
  case none.error => cases hok
  case some.error => cases hok
  all_goals
    split at hok <;> rename_i hc
  · exact ⟨p, by rw [if_pos hc]; exact ((Except.ok.injEq _ _).mp hok).symm⟩
  · exact ⟨p, by rw [if_neg hc]; exact ((Except.ok.injEq _ _).mp hok).symm⟩
  · exact ⟨p, by rw [if_pos hc]; exact ((Except.ok.injEq _ _).mp hok).symm⟩
  · exact ⟨p, by rw [if_neg hc]; exact ((Except.ok.injEq _ _).mp hok).symm⟩

/-- C3 witness: with the `spheroid` option on a geodetic PostGIS
`distance_lte` lookup the list has two elements (quoted spheroid first);
without the option it has one. -/
theorem c3_get_distance_spheroid_shape_witness :
    (∃ p, ([gqn (.pstr degreeField.spheroid), PyVal.num 2500] : List PyVal)
      = if pgBackend.postgis = true ∧ degreeField.geodetic = true ∧
          ("distance_lte" : String) ≠ "dwithin" ∧
          (some (PyVal.pstr ("spheroid")) : Option PyVal) = some (.pstr ("spheroid")) then
          [gqn (.pstr degreeField.spheroid), p] else [p]) := by
  exact c3_get_distance_spheroid_shape degreeField pgBackend ("distance_lte")
    (.dist ⟨2500⟩) (some (.pstr ("spheroid")))
    [gqn (.pstr degreeField.spheroid), PyVal.num 2500] rfl

/-- C4: `get_srid` returns the field's SRID exactly when the geometry's own
SRID is `None`, or is `-1` while the field's SRID is not `-1`; otherwise it
returns the geometry's own SRID. -/
theorem c4_get_srid_default (f : GeometryField) (gsrid : Option Int) :
    ((gsrid = none ∨ gsrid = some (-1) ∧ f.srid ≠ -1) → f.get_srid gsrid = f.srid)
    ∧ ∀ s : Int, gsrid = some s → ¬(s = -1 ∧ f.srid ≠ -1) → f.get_srid gsrid = s := by
  constructor
  · rintro (rfl | ⟨rfl, hs⟩)
    · rfl
    · simp [GeometryField.get_srid, hs]
  · rintro s rfl hs
    simp [GeometryField.get_srid, hs]

/-- C4 witness: a geometry with SRID `None` gets the field SRID 4326; SRID
`-1` is replaced by 4326; an explicit SRID 32140 is preserved. -/
theorem c4_get_srid_default_witness :
    degreeField.get_srid none = 4326
    ∧ degreeField.get_srid (some (-1)) = 4326
    ∧ degreeField.get_srid (some 32140) = 32140 := by
  refine ⟨(c4_get_srid_default degreeField none).1 (Or.inl rfl), ?_, ?_⟩
  · exact (c4_get_srid_default degreeField (some (-1))).1 (Or.inr ⟨rfl, by decide⟩)
  · exact (c4_get_srid_default degreeField (some 32140)).2 32140 rfl (by decide)

/-- A concrete geometry with SRID 4326, for the witnesses. -/
def gPt : Geometry := { srid := some 4326, payload := "POINT (1 2)" }

/-- On a tuple value, `get_geometry` only looks at the first element. -/
theorem get_geometry_tup_cons (f : GeometryField) (b : SpatialBackend) (v : PyVal)
    (rest : List PyVal) :
    f.get_geometry b (.tup (v :: rest)) = f.get_geometry b (.single v) := rfl

/-- C5: `get_geometry` does no parsing of its own: on a string lookup value
its outcome is exactly that of the backend `Geometry` constructor
(`ValueError` when the constructor raises `GeometryException`, otherwise the
constructed geometry with the SRID assigned), and a value that is neither a
backend geometry nor a string raises `TypeError`. -/
theorem c5_get_geometry_delegates (f : GeometryField) (b : SpatialBackend)
    (value : LookupValue) (v : PyVal) (rest : List PyVal)
    (hv : value = .single v ∨ value = .tup (v :: rest)) :
    (∀ s, v = .pstr s →
      (b.parseGeom s = none → f.get_geometry b value = .error .valueError)
      ∧ ∀ g, b.parseGeom s = some g →
        f.get_geometry b value = .ok { g with srid := some (f.get_srid g.srid) })
    ∧ ((∀ g, v ≠ .geom g) → (∀ s, v ≠ .pstr s) →
      f.get_geometry b value = .error .typeError) := by
  constructor
  · rintro s rfl
    constructor
    · intro hp
      rcases hv with rfl | rfl <;> simp [GeometryField.get_geometry, hp]
    · intro g hp
      rcases hv with rfl | rfl <;> simp [GeometryField.get_geometry, hp]
  · intro hg hs
    rcases hv with rfl | rfl <;> rcases v with g | s | d | q | _ <;>
      first
      | exact absurd rfl (hg g)
      | exact absurd rfl (hs s)
      | rfl

/-- C5 witness: a parseable WKT string yields the backend-constructed
geometry with the field SRID; a string the backend rejects raises
`ValueError`; a numeric value raises `TypeError`. -/
theorem c5_get_geometry_delegates_witness :
    degreeField.get_geometry pgBackend (.single (.pstr ("POINT (0 0)")))
      = .ok { srid := some 4326, payload := "POINT (0 0)" }
    ∧ degreeField.get_geometry pgBackend (.single (.pstr ("JUNK")))
      = .error .valueError
    ∧ degreeField.get_geometry pgBackend (.single (.num 3)) = .error .typeError := by
  refine ⟨?_, ?_, ?_⟩
  · exact ((c5_get_geometry_delegates degreeField pgBackend _ (.pstr ("POINT (0 0)")) []
      (Or.inl rfl)).1 _ rfl).2 { srid := none, payload := "POINT (0 0)" } (by decide)
  · exact ((c5_get_geometry_delegates degreeField pgBackend _ (.pstr ("JUNK")) []
      (Or.inl rfl)).1 _ rfl).1 (by decide)
  · exact (c5_get_geometry_delegates degreeField pgBackend _ (.num 3) []
      (Or.inl rfl)).2 (fun g h => by cases h) (fun s h => by cases h)

/-- C6: for every lookup type in `gis_terms` other than `isnull` whose
geometry resolves, `get_db_prep_lookup` returns params holding exactly the
adaptor-wrapped geometry and a WHERE list beginning with the field's
placeholder; for distance-function lookups on a tuple the `get_distance`
results follow the placeholder, for `limited_where` lookups nothing
follows, and for other tuple lookups the remaining elements follow
`gqn`-quoted. -/
theorem c6_get_db_prep_lookup_shape (f : GeometryField) (b : SpatialBackend)
    (lt : String) (value : LookupValue) (g : Geometry)
    (hterm : lt ∈ b.gis_terms) (hnn : lt ≠ "isnull")
    (hg : f.get_geometry b value = .ok g) :
    (∀ v0, value = .single v0 →
      f.get_db_prep_lookup b lt value
        = .ok ([.pstr (b.get_placeholder g)], [Adaptor.mk g]))
    ∧ ∀ vs, value = .tup vs →
        (lt ∈ b.distance_functions →
          ∀ dists, f.get_distance b (vs.drop 1) lt = .ok dists →
            f.get_db_prep_lookup b lt value
              = .ok (.pstr (b.get_placeholder g) :: dists, [Adaptor.mk g]))
        ∧ (lt ∉ b.distance_functions → lt ∈ b.limited_where →
            f.get_db_prep_lookup b lt value
              = .ok ([.pstr (b.get_placeholder g)], [Adaptor.mk g]))
        ∧ (lt ∉ b.distance_functions → lt ∉ b.limited_where →
            f.get_db_prep_lookup b lt value
              = .ok (.pstr (b.get_placeholder g) :: (vs.drop 1).map gqn,
                  [Adaptor.mk g])) := by
  constructor
  · rintro v0 rfl
    simp [GeometryField.get_db_prep_lookup, hterm, hnn, hg]
  · rintro vs rfl
    refine ⟨?_, ?_, ?_⟩
    · rintro hdf dists hdist
      have hdist' : f.get_distance b vs.tail lt = .ok dists := by
        rwa [List.drop_one] at hdist
      simp [GeometryField.get_db_prep_lookup, hterm, hnn, hg, hdf, hdist, hdist']
    · rintro hdf hlw
      simp [GeometryField.get_db_prep_lookup, hterm, hnn, hg, hdf, hlw]
    · rintro hdf hlw
      simp [GeometryField.get_db_prep_lookup, hterm, hnn, hg, hdf, hlw]

/-- C6 witness: a `distance_lte` lookup on a tuple value yields the
placeholder followed by the converted distance, with the adaptor-wrapped
geometry as sole parameter; a `relate` lookup quotes the extra string with
`gqn`; a plain `contains` lookup yields the placeholder alone. -/
theorem c6_get_db_prep_lookup_shape_witness :
    degreeField.get_db_prep_lookup pgBackend ("distance_lte")
      (.tup [.geom gPt, .dist ⟨2500⟩])
      = .ok ([.pstr ("%s"), .num 2500], [Adaptor.mk gPt])
    ∧ degreeField.get_db_prep_lookup pgBackend ("relate")
      (.tup [.geom gPt, .pstr ("T*T***T**")])
      = .ok ([.pstr ("%s"), .pstr ("\x27T*T***T**\x27")], [Adaptor.mk gPt])
    ∧ degreeField.get_db_prep_lookup pgBackend ("contains") (.single (.geom gPt))
      = .ok ([.pstr ("%s")], [Adaptor.mk gPt]) := by
  refine ⟨?_, ?_, ?_⟩
  · exact (((c6_get_db_prep_lookup_shape degreeField pgBackend ("distance_lte")
      (.tup [.geom gPt, .dist ⟨2500⟩]) gPt (by decide) (by decide) rfl).2
      [.geom gPt, .dist ⟨2500⟩] rfl).1 (by decide) [.num 2500] rfl)
  · exact (((c6_get_db_prep_lookup_shape degreeField pgBackend ("relate")
      (.tup [.geom gPt, .pstr ("T*T***T**")]) gPt (by decide) (by decide) rfl).2
      [.geom gPt, .pstr ("T*T***T**")] rfl).2.2 (by decide) (by decide))
  · exact ((c6_get_db_prep_lookup_shape degreeField pgBackend ("contains")
      (.single (.geom gPt)) gPt (by decide) (by decide) rfl).1 (.geom gPt) rfl)

/-- C7: the seven geometry-kind subclasses are exactly `PointField`,
`LineStringField`, `PolygonField`, `MultiPointField`,
`MultiLineStringField`, `MultiPolygonField` and `GeometryCollectionField`;
each differs from the base class only in the `_geom` slot, and every
operation is insensitive to that slot, hence extensionally equal to the
base class's. -/
theorem c7_subclasses_thin (srid : Int) (u un sph : String) (si : Bool) (dm : Nat)
    (b : SpatialBackend) :
    ([PointField, LineStringField, PolygonField, MultiPointField, MultiLineStringField,
      MultiPolygonField, GeometryCollectionField].map
        (fun c => (c srid u un sph si dm).geom_type)
      = ["POINT", "LINESTRING", "POLYGON", "MULTIPOINT", "MULTILINESTRING",
          "MULTIPOLYGON", "GEOMETRYCOLLECTION"])
    ∧ (PointField srid u un sph si dm
        = { GeometryField.make srid u un sph si dm with geom_type := "POINT" })
    ∧ (LineStringField srid u un sph si dm
        = { GeometryField.make srid u un sph si dm with geom_type := "LINESTRING" })
    ∧ (PolygonField srid u un sph si dm
        = { GeometryField.make srid u un sph si dm with geom_type := "POLYGON" })
    ∧ (MultiPointField srid u un sph si dm
        = { GeometryField.make srid u un sph si dm with geom_type := "MULTIPOINT" })
    ∧ (MultiLineStringField srid u un sph si dm
        = { GeometryField.make srid u un sph si dm with geom_type := "MULTILINESTRING" })
    ∧ (MultiPolygonField srid u un sph si dm
        = { GeometryField.make srid u un sph si dm with geom_type := "MULTIPOLYGON" })
    ∧ (GeometryCollectionField srid u un sph si dm
        = { GeometryField.make srid u un sph si dm with
            geom_type := "GEOMETRYCOLLECTION" })
    ∧ ∀ (f : GeometryField) (s : String),
        (({ f with geom_type := s }).geodetic = f.geodetic)
        ∧ (∀ dv lt2, ({ f with geom_type := s }).get_distance b dv lt2
            = f.get_distance b dv lt2)
        ∧ (∀ value, ({ f with geom_type := s }).get_geometry b value
            = f.get_geometry b value)
        ∧ (∀ gs, ({ f with geom_type := s }).get_srid gs = f.get_srid gs)
        ∧ (∀ lt2 value, ({ f with geom_type := s }).get_db_prep_lookup b lt2 value
            = f.get_db_prep_lookup b lt2 value)
        ∧ ∀ v, ({ f with geom_type := s }).get_db_prep_save v
            = f.get_db_prep_save v := by
  refine ⟨rfl, rfl, rfl, rfl, rfl, rfl, rfl, rfl, ?_⟩
  intro f s
  exact ⟨rfl, fun dv lt2 => rfl, fun value => rfl, fun gs => rfl,
    fun lt2 value => rfl, fun v => rfl⟩

/-- C8: every geometry `get_geometry` returns has a non-`None` SRID (it is
the input geometry with its `srid` attribute overwritten by `get_srid`),
and hence every adaptor in the parameters produced by `get_db_prep_lookup`
wraps a geometry with a non-`None` SRID. -/
theorem c8_srid_always_set (f : GeometryField) (b : SpatialBackend) :
    (∀ value g, f.get_geometry b value = .ok g → ∃ s : Int, g.srid = some s)
    ∧ (∀ g0, f.get_geometry b (.single (.geom g0))
        = .ok { g0 with srid := some (f.get_srid g0.srid) })
    ∧ ∀ lt value w p, f.get_db_prep_lookup b lt value = .ok (w, p) →
        ∀ a ∈ p, ∃ s : Int, a.geom.srid = some s := by
  have part1 : ∀ value g, f.get_geometry b value = .ok g → ∃ s : Int, g.srid = some s := by
    have core : ∀ (v : PyVal) (g : Geometry),
        f.get_geometry b (.single v) = .ok g → ∃ s : Int, g.srid = some s := by
      intro v g h
      rcases v with g1 | s | d | q | _
      · simp only [GeometryField.get_geometry, Except.ok.injEq] at h
        subst h
        exact ⟨_, rfl⟩
      · rcases hp : b.parseGeom s with _ | g2 <;>
          simp only [GeometryField.get_geometry, hp] at h
        · cases h
        · simp only [Except.ok.injEq] at h
          subst h
          exact ⟨_, rfl⟩
      · simp [GeometryField.get_geometry] at h
      · simp [GeometryField.get_geometry] at h
      · simp [GeometryField.get_geometry] at h
    intro value g h
    rcases value with v | vs
    · exact core v g h
    · rcases vs with _ | ⟨v, rest⟩
      · simp [GeometryField.get_geometry] at h
      · rw [get_geometry_tup_cons] at h
        exact core v g h
  refine ⟨part1, fun g0 => rfl, ?_⟩
  intro lt value w p h a ha
  unfold GeometryField.get_db_prep_lookup at h
  split at h
  case isFalse => exact absurd h (by simp)
  case isTrue hterm =>
    split at h
    case isTrue hisnull =>
      simp only [Except.ok.injEq, Prod.mk.injEq] at h
      obtain ⟨-, rfl⟩ := h
      cases ha
    case isFalse hisnull =>
      rcases hgeom : f.get_geometry b value with e | g <;>
        simp only [hgeom] at h
      · exact absurd h (by simp)
      · have hsrid := part1 value g hgeom
        split at h
        case h_2 v =>
          simp only [Except.ok.injEq, Prod.mk.injEq] at h
          obtain ⟨-, rfl⟩ := h
          simp only [List.mem_singleton] at ha
          subst ha
          exact hsrid
        case h_1 vs =>
          split at h
          case isTrue hdf =>
            rcases hdist : f.get_distance b (vs.drop 1) lt with e2 | dists <;>
              simp only [hdist] at h
            · exact absurd h (by simp)
            · simp only [Except.ok.injEq, Prod.mk.injEq] at h
              obtain ⟨-, rfl⟩ := h
              simp only [List.mem_singleton] at ha
              subst ha
              exact hsrid
          case isFalse hdf =>
            split at h <;>
              (simp only [Except.ok.injEq, Prod.mk.injEq] at h
               obtain ⟨-, rfl⟩ := h
               simp only [List.mem_singleton] at ha
               subst ha
               exact hsrid)

/-- C8 witness: the geometry produced for a concrete lookup has SRID
`some 4326`, as does the geometry inside the adaptor parameter of a
concrete `contains` lookup. -/
theorem c8_srid_always_set_witness :
    (∃ s : Int, gPt.srid = some s)
    ∧ ∃ s : Int, (Adaptor.mk gPt).geom.srid = some s := by
  refine ⟨(c8_srid_always_set degreeField pgBackend).1 (.single (.geom gPt)) gPt rfl, ?_⟩
  exact (c8_srid_always_set degreeField pgBackend).2.2 ("contains")
    (.single (.geom gPt)) [.pstr ("%s")] [Adaptor.mk gPt] rfl (Adaptor.mk gPt)
    (List.mem_singleton_self _)

/-- C9: `get_db_prep_save` wraps a backend geometry in the adaptor, maps
`None` to `None`, and raises `TypeError` on everything else — in
particular on WKT strings. -/
theorem c9_get_db_prep_save_spec (f : GeometryField) (v : PyVal) :
    (∀ g, v = .geom g → f.get_db_prep_save v = .ok (some (Adaptor.mk g)))
    ∧ (v = .pynone → f.get_db_prep_save v = .ok none)
    ∧ (∀ s, f.get_db_prep_save (.pstr s) = .error .typeError)
    ∧ ((∀ g, v ≠ .geom g) → v ≠ .pynone → f.get_db_prep_save v = .error .typeError) := by
  refine ⟨?_, ?_, fun s => rfl, ?_⟩
  · rintro g rfl; rfl
  · rintro rfl; rfl
  · intro hg hn
    rcases v with g | s | d | q | _
    · exact absurd rfl (hg g)
    · rfl
    · rfl
    · rfl
    · exact absurd rfl hn

/-- C9 witness: a geometry is adaptor-wrapped, `None` stays `None`, and a
WKT string raises `TypeError` on save. -/
theorem c9_get_db_prep_save_spec_witness :
    meterField.get_db_prep_save (.geom gPt) = .ok (some (Adaptor.mk gPt))
    ∧ meterField.get_db_prep_save .pynone = .ok none
    ∧ meterField.get_db_prep_save (.pstr ("POINT (0 0)")) = .error .typeError := by
  exact ⟨(c9_get_db_prep_save_spec meterField (.geom gPt)).1 gPt rfl,
    (c9_get_db_prep_save_spec meterField .pynone).2.1 rfl,
    (c9_get_db_prep_save_spec meterField (.pstr ("POINT (0 0)"))).2.2.1 _⟩

/-- C10: `get_db_prep_lookup` raises `TypeError` for every lookup type not
in the backend's `gis_terms`, and (when `isnull` is a GIS term) the
`isnull` lookup returns `([], [])` for every value, touching no
geometry. -/
theorem c10_lookup_guard (f : GeometryField) (b : SpatialBackend)
    (lt : String) (value : LookupValue) :
    (lt ∉ b.gis_terms →
      f.get_db_prep_lookup b lt value = .error .typeError)
    ∧ (("isnull" : String) ∈ b.gis_terms →
      f.get_db_prep_lookup b ("isnull") value = .ok ([], [])) := by
  constructor
  · intro h
    simp [GeometryField.get_db_prep_lookup, h]
  · intro h
    simp [GeometryField.get_db_prep_lookup, h]

/-- C10 witness: the unknown lookup `within` raises `TypeError` on the
sample backend; `isnull` returns `([], [])` even for a `None` value. -/
theorem c10_lookup_guard_witness :
    degreeField.get_db_prep_lookup pgBackend ("within") (.single (.num 3))
      = .error .typeError
    ∧ degreeField.get_db_prep_lookup pgBackend ("isnull") (.single .pynone)
      = .ok ([], []) := by
  exact ⟨(c10_lookup_guard degreeField pgBackend ("within") (.single (.num 3))).1
      (by decide),
    (c10_lookup_guard degreeField pgBackend ("isnull") (.single .pynone)).2 (by decide)⟩

end GeoDjango
